import Mathlib

/-!
RSS Guard, `src/network-web/webview.cpp`

A shallow embedding of the mouse-gesture handling (`WebView::mousePressEvent`,
`WebView::mouseReleaseEvent`) and of the zoom slots (`increaseWebPageZoom`,
`decreaseWebPageZoom`, `resetWebPageZoom`) of the `WebView` widget, followed by the
properties of the specification that speak about them.

Conventions of the embedding.

* C++ `int` is 32 bits wide. A value of type `int` is an `Int`, and every `int`
  subtraction and negation of the code is followed by `wrapInt`, the reduction to the
  two's-complement range `[-2^31, 2^31)` that the compiled program performs on overflow.
* `qreal` is `ℚ`: the zoom properties are stated over exact rational arithmetic.
* Calls into the toolkit (`back()`, `forward()`, `reload()`, the base-class event
  handlers) and emitted signals are recorded, in program order, in a list of `Call`s.
* Values owned by collaborators that are read by the code (the "gestures enabled"
  setting, the hit-test result, `MAX_ZOOM_FACTOR` of `definitions/definitions.h`) are
  arguments of the embedded functions.
-/

namespace WebView

/-! ## Data model -/

/-- Toolkit `QPoint`: a point whose coordinates are C++ `int`s. -/
structure QPoint where
  x : Int
  y : Int
deriving DecidableEq, Repr

/-- Toolkit enumeration `Qt::MouseButton` (the button that caused a mouse event). Further
extra buttons of later toolkit versions have single-bit flags above `0x10` and are
treated by both handlers exactly like `XButton1` and `XButton2`. -/
inductive MouseButton
  | NoButton
  | LeftButton
  | RightButton
  | MiddleButton
  | XButton1
  | XButton2
deriving DecidableEq, Repr

/-- Numeric flag value of a `Qt::MouseButton`, as declared by the toolkit. -/
def MouseButton.flag : MouseButton → Nat
  | .NoButton => 0x0
  | .LeftButton => 0x1
  | .RightButton => 0x2
  | .MiddleButton => 0x4
  | .XButton1 => 0x8
  | .XButton2 => 0x10

/-- Toolkit flag `Qt::ControlModifier`. -/
def ControlModifier : Nat := 0x04000000

/-- The part of a `QMouseEvent` the handlers read: `button()`, `modifiers()`, `pos()`. -/
structure QMouseEvent where
  button : MouseButton
  modifiers : Nat
  pos : QPoint
deriving DecidableEq, Repr

/-- The part of a `QWebHitTestResult` the press handler reads: `linkUrl()` and
`imageUrl()`, with `none` standing for a URL that is not `isValid()`. -/
structure QWebHitTestResult where
  linkUrl : Option String
  imageUrl : Option String
deriving DecidableEq, Repr

/-- Observable calls and signal emissions made by the handlers. -/
inductive Call
  | back
  | forward
  | reload
  | newTabRequested
  | linkMiddleClicked (url : String)
  | baseMousePressEvent
  | baseMouseReleaseEvent
deriving DecidableEq, Repr

/-- The member state of `WebView` that the mouse handlers touch. -/
structure State where
  m_gestureOrigin : QPoint
deriving DecidableEq, Repr

/-! ## Operations -/

/-- A value is representable as a 32-bit C++ `int`. -/
def fitsInt (z : Int) : Prop := -2147483648 ≤ z ∧ z ≤ 2147483647

instance (z : Int) : Decidable (fitsInt z) :=
  inferInstanceAs (Decidable (-2147483648 ≤ z ∧ z ≤ 2147483647))

/-- Result of 32-bit `int` arithmetic: the exact result reduced modulo `2^32` into
`[-2^31, 2^31)`. It is the exact result whenever that is representable. -/
def wrapInt (z : Int) : Int := (z + 2147483648) % 4294967296 - 2147483648

/-- Toolkit template `qMax(a, b)`, which is `(a < b) ? b : a`. -/
def qMax (a b : Int) : Int := if a < b then b else a

/-- Body of the `if (are_gestures_enabled)` block of `WebView::mouseReleaseEvent`
(lines 308-326): the navigation calls made for a stored origin and a release point. -/
def resolveGesture (m_gestureOrigin release_point : QPoint) : List Call :=
  let left_move := wrapInt (m_gestureOrigin.x - release_point.x)
  let right_move := wrapInt (-left_move)
  let top_move := wrapInt (m_gestureOrigin.y - release_point.y)
  let bottom_move := wrapInt (-top_move)
  let total_max := qMax (qMax (qMax left_move right_move) (qMax top_move bottom_move)) 40
  if total_max = left_move then [Call.back]
  else if total_max = right_move then [Call.forward]
  else if total_max = top_move then [Call.reload]
  else if total_max = bottom_move then [Call.newTabRequested]
  else []

/-- Embedding of `WebView::mousePressEvent`. `hit_result` is what the hit test at
`event->pos()` would return; it is only consulted on a Ctrl + left press. -/
def mousePressEvent (s : State) (hit_result : QWebHitTestResult) (event : QMouseEvent) :
    State × List Call :=
  if event.button.flag &&& MouseButton.LeftButton.flag ≠ 0 ∧
      event.modifiers &&& ControlModifier ≠ 0 then
    match hit_result.linkUrl with
    | some link_url => (s, [Call.linkMiddleClicked link_url])
    | none =>
      match hit_result.imageUrl with
      | some image_url => (s, [Call.linkMiddleClicked image_url])
      | none => (s, [Call.baseMousePressEvent])
  else if event.button.flag &&& MouseButton.MiddleButton.flag ≠ 0 then
    ({ s with m_gestureOrigin := event.pos }, [])
  else
    (s, [Call.baseMousePressEvent])

/-- Embedding of `WebView::mouseReleaseEvent`. `are_gestures_enabled` is the value of the
`Browser::GesturesEnabled` setting (only read on a middle-button release). -/
def mouseReleaseEvent (s : State) (are_gestures_enabled : Bool) (event : QMouseEvent) :
    State × List Call :=
  let gesture :=
    if event.button.flag &&& MouseButton.MiddleButton.flag ≠ 0 then
      if are_gestures_enabled then resolveGesture s.m_gestureOrigin event.pos else []
    else []
  (s, gesture ++ [Call.baseMouseReleaseEvent])

/-- Embedding of `WebView::increaseWebPageZoom`: the returned flag and the zoom factor
after the call, for the ceiling `MAX_ZOOM_FACTOR` and the factor `zoomFactor` before it. -/
def increaseWebPageZoom (MAX_ZOOM_FACTOR zoomFactor : ℚ) : Bool × ℚ :=
  let new_factor := zoomFactor + 1 / 10
  if 0 ≤ new_factor ∧ new_factor ≤ MAX_ZOOM_FACTOR then (true, new_factor)
  else (false, zoomFactor)

/-- Embedding of `WebView::decreaseWebPageZoom`. -/
def decreaseWebPageZoom (MAX_ZOOM_FACTOR zoomFactor : ℚ) : Bool × ℚ :=
  let new_factor := zoomFactor - 1 / 10
  if 0 ≤ new_factor ∧ new_factor ≤ MAX_ZOOM_FACTOR then (true, new_factor)
  else (false, zoomFactor)

/-- Embedding of `WebView::resetWebPageZoom`. -/
def resetWebPageZoom (zoomFactor : ℚ) : Bool × ℚ :=
  let new_factor : ℚ := 1
  if new_factor ≠ zoomFactor then (true, new_factor)
  else (false, zoomFactor)

/-- Zoom factor after `k` consecutive calls of `increaseWebPageZoom`, starting from the
factor `1.0`. -/
def zoomAfterIncreases (MAX_ZOOM_FACTOR : ℚ) : Nat → ℚ
  | 0 => 1
  | k + 1 => (increaseWebPageZoom MAX_ZOOM_FACTOR (zoomAfterIncreases MAX_ZOOM_FACTOR k)).2

/-! ## The specification's wording, for comparison with the code -/

/-- The four navigation actions of the specification's resolver. -/
inductive Action
  | Back
  | Forward
  | Reload
  | RequestNewTab
deriving DecidableEq, Repr

/-- The call by which the host view carries out a resolved action. -/
def Action.toCall : Action → Call
  | .Back => Call.back
  | .Forward => Call.forward
  | .Reload => Call.reload
  | .RequestNewTab => Call.newTabRequested

/-- The resolver as the specification words it (section 4.1): the threshold is
`max(left, right, top, bottom, 40)` and the first match in the order Back, Forward,
Reload, RequestNewTab wins. -/
def resolveSpec (origin release : QPoint) : Option Action :=
  let left := origin.x - release.x
  let right := -left
  let top := origin.y - release.y
  let bottom := -top
  let threshold := max (max (max (max left right) top) bottom) 40
  if threshold = left then some Action.Back
  else if threshold = right then some Action.Forward
  else if threshold = top then some Action.Reload
  else if threshold = bottom then some Action.RequestNewTab
  else none

/-- None of the four displacements of a gesture overflows `int`: both exact differences
and their negations are representable. -/
def noOverflow (origin release : QPoint) : Prop :=
  fitsInt (origin.x - release.x) ∧ fitsInt (-(origin.x - release.x)) ∧
    fitsInt (origin.y - release.y) ∧ fitsInt (-(origin.y - release.y))

instance (origin release : QPoint) : Decidable (noOverflow origin release) :=
  inferInstanceAs (Decidable (fitsInt (origin.x - release.x) ∧
    fitsInt (-(origin.x - release.x)) ∧ fitsInt (origin.y - release.y) ∧
    fitsInt (-(origin.y - release.y))))

/-- The specification's `clamp(x, lo, hi)`. -/
def clampSpec (x lo hi : ℚ) : ℚ := max lo (min x hi)

/-! ## Auxiliary facts -/

theorem qMax_eq_max (a b : Int) : qMax a b = max a b := by
  unfold qMax
  split <;> omega

theorem flag_and_middle (b : MouseButton) :
    b.flag &&& MouseButton.MiddleButton.flag ≠ 0 ↔ b = MouseButton.MiddleButton := by
  cases b <;> decide

theorem flag_and_left (b : MouseButton) :
    b.flag &&& MouseButton.LeftButton.flag ≠ 0 ↔ b = MouseButton.LeftButton := by
  cases b <;> decide

theorem middle_release_calls (s : State) (g : Bool) (m : Nat) (p : QPoint) :
    mouseReleaseEvent s g ⟨MouseButton.MiddleButton, m, p⟩ =
      (s, (if g then resolveGesture s.m_gestureOrigin p else []) ++
        [Call.baseMouseReleaseEvent]) := by
  simp [mouseReleaseEvent, MouseButton.flag]

theorem wrapInt_of_fits (z : Int) (h : fitsInt z) : wrapInt z = z := by
  unfold fitsInt at h
  unfold wrapInt
  omega

/-- Without overflow the code computes the exact displacements. -/
theorem resolveGesture_exact (o r : QPoint) (h : noOverflow o r) :
    resolveGesture o r =
      if max (max (max (max (o.x - r.x) (-(o.x - r.x))) (o.y - r.y)) (-(o.y - r.y))) 40
          = o.x - r.x then [Call.back]
      else if max (max (max (max (o.x - r.x) (-(o.x - r.x))) (o.y - r.y)) (-(o.y - r.y))) 40
          = -(o.x - r.x) then [Call.forward]
      else if max (max (max (max (o.x - r.x) (-(o.x - r.x))) (o.y - r.y)) (-(o.y - r.y))) 40
          = o.y - r.y then [Call.reload]
      else if max (max (max (max (o.x - r.x) (-(o.x - r.x))) (o.y - r.y)) (-(o.y - r.y))) 40
          = -(o.y - r.y) then [Call.newTabRequested]
      else [] := by
  obtain ⟨h1, h2, h3, h4⟩ := h
  simp only [resolveGesture, wrapInt_of_fits _ h1, wrapInt_of_fits _ h2,
    wrapInt_of_fits _ h3, wrapInt_of_fits _ h4, qMax_eq_max]
  split_ifs <;> first | rfl | omega

theorem resolveGesture_eq_spec (o r : QPoint) (h : noOverflow o r) :
    resolveGesture o r = ((resolveSpec o r).map Action.toCall).toList := by
  rw [resolveGesture_exact o r h]
  simp only [resolveSpec]
  split_ifs <;> rfl

theorem resolveGesture_count_base (o r : QPoint) :
    (resolveGesture o r).count Call.baseMouseReleaseEvent = 0 := by
  simp only [resolveGesture]
  split_ifs <;> simp

theorem resolveGesture_length_le (o r : QPoint) : (resolveGesture o r).length ≤ 1 := by
  simp only [resolveGesture]
  split_ifs <;> simp

theorem resolveGesture_filter (o r : QPoint) :
    (resolveGesture o r).filter (fun c => decide (c ≠ Call.baseMouseReleaseEvent)) =
      resolveGesture o r := by
  simp only [resolveGesture]
  split_ifs <;> simp

theorem release_keeps_state (s : State) (g : Bool) (event : QMouseEvent) :
    (mouseReleaseEvent s g event).1 = s := rfl

theorem increase_eq (M f : ℚ) :
    increaseWebPageZoom M f =
      if 0 ≤ f + 1 / 10 ∧ f + 1 / 10 ≤ M then (true, f + 1 / 10) else (false, f) := rfl

theorem decrease_eq (M f : ℚ) :
    decreaseWebPageZoom M f =
      if 0 ≤ f - 1 / 10 ∧ f - 1 / 10 ≤ M then (true, f - 1 / 10) else (false, f) := rfl

theorem reset_eq (f : ℚ) :
    resetWebPageZoom f = if (1 : ℚ) ≠ f then (true, 1) else (false, f) := rfl

theorem clampSpec_of_mem (x M : ℚ) (h0 : 0 ≤ x) (h1 : x ≤ M) : clampSpec x 0 M = x := by
  simp [clampSpec, h0, h1]

/-- While at most `⌊(M - 1) * 10⌋` increases were made, each of them was applied. -/
theorem zoomAfterIncreases_of_le (M : ℚ) (hM : 1 ≤ M) (k : Nat)
    (hk : k ≤ ⌊(M - 1) * 10⌋₊) : zoomAfterIncreases M k = 1 + (k : ℚ) / 10 := by
  induction k with
  | zero => simp [zoomAfterIncreases]
  | succ k ih =>
    have hfl : ((⌊(M - 1) * 10⌋₊ : Nat) : ℚ) ≤ (M - 1) * 10 :=
      Nat.floor_le (by nlinarith)
    have hk1 : ((k : ℚ) + 1) ≤ (⌊(M - 1) * 10⌋₊ : Nat) := by exact_mod_cast hk
    have hk0 : (0 : ℚ) ≤ k := Nat.cast_nonneg k
    rw [zoomAfterIncreases, ih (Nat.le_of_succ_le hk), increase_eq,
      if_pos ⟨by linarith, by linarith⟩]
    push_cast
    ring

/-- From `⌊(M - 1) * 10⌋` increases on, the factor no longer moves. -/
theorem zoomAfterIncreases_of_ge (M : ℚ) (hM : 1 ≤ M) (k : Nat)
    (hk : ⌊(M - 1) * 10⌋₊ ≤ k) :
    zoomAfterIncreases M k = 1 + ((⌊(M - 1) * 10⌋₊ : Nat) : ℚ) / 10 := by
  induction k, hk using Nat.le_induction with
  | base => exact zoomAfterIncreases_of_le M hM _ le_rfl
  | succ k _ ih =>
    have hlt : (M - 1) * 10 < ((⌊(M - 1) * 10⌋₊ : Nat) : ℚ) + 1 := Nat.lt_floor_add_one _
    rw [zoomAfterIncreases, ih, increase_eq, if_neg (fun hc => by linarith [hc.2])]

/-! ## Gesture resolution -/

/-- C1: on a middle-button release with gestures enabled, and with no overflow in the
displacements, the handler makes exactly the call of the action the specification's
first-match chain (Back, Forward, Reload, RequestNewTab over
`threshold = max(left, right, top, bottom, 40)`) selects, or no navigation call when the
chain selects nothing, and then forwards the event to the base handler; at most one
navigation call is made (this bound holds for every input). -/
theorem release_fires_first_match (s : State) (m : Nat) (release : QPoint) :
    (noOverflow s.m_gestureOrigin release →
        (mouseReleaseEvent s true ⟨MouseButton.MiddleButton, m, release⟩).2 =
          ((resolveSpec s.m_gestureOrigin release).map Action.toCall).toList ++
            [Call.baseMouseReleaseEvent]) ∧
      ((mouseReleaseEvent s true ⟨MouseButton.MiddleButton, m, release⟩).2.filter
        (fun c => decide (c ≠ Call.baseMouseReleaseEvent))).length ≤ 1 := by
  rw [middle_release_calls]
  refine ⟨fun h => ?_, ?_⟩
  · rw [resolveGesture_eq_spec _ _ h]
    simp
  · simp only [if_true, List.filter_append, resolveGesture_filter]
    simpa using resolveGesture_length_le s.m_gestureOrigin release

theorem release_fires_first_match_witness :
    noOverflow ⟨100, 100⟩ ⟨100, 40⟩ ∧
      (mouseReleaseEvent ⟨⟨100, 100⟩⟩ true ⟨MouseButton.MiddleButton, 0, ⟨100, 40⟩⟩).2 =
        ((resolveSpec ⟨100, 100⟩ ⟨100, 40⟩).map Action.toCall).toList ++
          [Call.baseMouseReleaseEvent] :=
  ⟨by decide, (release_fires_first_match ⟨⟨100, 100⟩⟩ 0 ⟨100, 40⟩).1 (by decide)⟩

/-- C2 (as amended): when none of the four displacements overflows `int`, the resolver
makes no call if and only if the largest of the four displacements is below 40; a press
and release at (0,0) makes no call; and a gesture whose largest displacement is exactly
40 does make a call. -/
theorem no_action_iff_below_floor (origin release : QPoint) :
    (noOverflow origin release →
        (resolveGesture origin release = [] ↔
          max (max (max (origin.x - release.x) (-(origin.x - release.x)))
            (origin.y - release.y)) (-(origin.y - release.y)) < 40)) ∧
      resolveGesture ⟨0, 0⟩ ⟨0, 0⟩ = [] ∧
      (max (max (max (origin.x - release.x) (-(origin.x - release.x)))
          (origin.y - release.y)) (-(origin.y - release.y)) = 40 →
        resolveGesture origin release ≠ []) := by
  have key : noOverflow origin release → (resolveGesture origin release = [] ↔
      max (max (max (origin.x - release.x) (-(origin.x - release.x)))
        (origin.y - release.y)) (-(origin.y - release.y)) < 40) := by
    intro h
    rw [resolveGesture_exact _ _ h]
    split_ifs <;> simp <;> omega
  refine ⟨key, by decide, fun h => ?_⟩
  have hno : noOverflow origin release := by
    unfold noOverflow fitsInt
    omega
  rw [Ne, key hno]
  omega

theorem no_action_iff_below_floor_witness :
    noOverflow ⟨0, 0⟩ ⟨0, 10⟩ ∧ resolveGesture ⟨0, 0⟩ ⟨0, 10⟩ = [] ∧
      resolveGesture ⟨0, 0⟩ ⟨0, 40⟩ ≠ [] :=
  ⟨by decide,
    ((no_action_iff_below_floor ⟨0, 0⟩ ⟨0, 10⟩).1 (by decide)).2 (by decide),
    (no_action_iff_below_floor ⟨0, 0⟩ ⟨0, 40⟩).2.2 (by decide)⟩

/-- C2 (as stated) fails: origin (-2147483648,0) and release (0,0) are `int`
coordinates, the exact largest displacement is 2147483648, which is not below 40, and
yet the handler makes no call: the negation of the left displacement overflows and
wraps to -2147483648, so the threshold is the floor 40, which no displacement equals. -/
theorem below_floor_fails_on_overflow :
    (fitsInt (-2147483648) ∧ fitsInt 0) ∧
      resolveGesture ⟨-2147483648, 0⟩ ⟨0, 0⟩ = [] ∧
      ¬ (max (max (max ((-2147483648 : Int) - 0) (-((-2147483648 : Int) - 0)))
          ((0 : Int) - 0)) (-((0 : Int) - 0)) < 40) := by
  decide

/-- C5 (as amended): for origin (50,0) and release (0,0) the left displacement is 50 and
is the threshold, the top displacement is 0, and the resolver calls `back`. A genuine
left/top tie, origin (50,50) and release (0,0), also resolves to `back`. -/
theorem tie_case_picks_back :
    ((50 : Int) - 0 = 50 ∧ (0 : Int) - 0 = 0 ∧
      qMax (qMax (qMax ((50 : Int) - 0) (-(50 - 0))) (qMax ((0 : Int) - 0) (-(0 - 0)))) 40
        = 50) ∧
      resolveGesture ⟨50, 0⟩ ⟨0, 0⟩ = [Call.back] ∧
      resolveSpec ⟨50, 0⟩ ⟨0, 0⟩ = some Action.Back ∧
      resolveGesture ⟨50, 50⟩ ⟨0, 0⟩ = [Call.back] := by
  decide

/-- C5 (as stated) fails: for origin (50,0) and release (0,0) the left and top
displacements computed by the handler are 50 and 0; they are not equal, and the top
displacement is not the threshold. -/
theorem tie_case_not_a_tie :
    ¬ ((⟨50, 0⟩ : QPoint).x - (⟨0, 0⟩ : QPoint).x = (⟨50, 0⟩ : QPoint).y - (⟨0, 0⟩ : QPoint).y ∧
      qMax (qMax (qMax ((⟨50, 0⟩ : QPoint).x - (⟨0, 0⟩ : QPoint).x)
          (-((⟨50, 0⟩ : QPoint).x - (⟨0, 0⟩ : QPoint).x)))
        (qMax ((⟨50, 0⟩ : QPoint).y - (⟨0, 0⟩ : QPoint).y)
          (-((⟨50, 0⟩ : QPoint).y - (⟨0, 0⟩ : QPoint).y)))) 40
        = (⟨50, 0⟩ : QPoint).y - (⟨0, 0⟩ : QPoint).y) := by
  decide

/-- C8 (as amended): an axis-aligned gesture of length `d` with `40 ≤ d ≤ 2147483647`
(so that no displacement overflows `int`) makes the call of its direction: release
straight above the origin gives `reload`, straight to the right `forward`, straight to
the left `back`, straight below `newTabRequested`. -/
theorem axis_aligned_gesture (origin release : QPoint) (d : Int) (hd : 40 ≤ d)
    (hfit : d ≤ 2147483647) :
    (release.x = origin.x → origin.y - release.y = d →
        resolveGesture origin release = [Call.reload]) ∧
      (release.y = origin.y → release.x - origin.x = d →
        resolveGesture origin release = [Call.forward]) ∧
      (release.y = origin.y → origin.x - release.x = d →
        resolveGesture origin release = [Call.back]) ∧
      (release.x = origin.x → release.y - origin.y = d →
        resolveGesture origin release = [Call.newTabRequested]) := by
  refine ⟨fun h1 h2 => ?_, fun h1 h2 => ?_, fun h1 h2 => ?_, fun h1 h2 => ?_⟩ <;>
  · have hno : noOverflow origin release := by
      unfold noOverflow fitsInt
      omega
    rw [resolveGesture_exact _ _ hno]
    split_ifs <;> first | rfl | omega

theorem axis_aligned_gesture_witness :
    ((40 : Int) ≤ 60 ∧ (60 : Int) ≤ 2147483647) ∧
      resolveGesture ⟨100, 100⟩ ⟨100, 40⟩ = [Call.reload] ∧
      resolveGesture ⟨100, 100⟩ ⟨160, 100⟩ = [Call.forward] :=
  ⟨by decide,
    (axis_aligned_gesture ⟨100, 100⟩ ⟨100, 40⟩ 60 (by decide) (by decide)).1 rfl (by decide),
    (axis_aligned_gesture ⟨100, 100⟩ ⟨160, 100⟩ 60 (by decide) (by decide)).2.1 rfl
      (by decide)⟩

/-- C8 (as stated) fails: origin (2000000000,0) and release (-2000000000,0) are `int`
coordinates of a drag straight to the left of length 4000000000 ≥ 40, for which the
claim names `back`; the left displacement overflows and wraps to -294967296, its
negation 294967296 is the threshold, and the handler calls `forward`. -/
theorem axis_aligned_fails_on_overflow :
    (fitsInt 2000000000 ∧ fitsInt (-2000000000) ∧ fitsInt 0) ∧
      ((⟨-2000000000, 0⟩ : QPoint).y = (⟨2000000000, 0⟩ : QPoint).y ∧
        (⟨2000000000, 0⟩ : QPoint).x - (⟨-2000000000, 0⟩ : QPoint).x = 4000000000 ∧
        (40 : Int) ≤ 4000000000) ∧
      resolveGesture ⟨2000000000, 0⟩ ⟨-2000000000, 0⟩ = [Call.forward] ∧
      resolveGesture ⟨2000000000, 0⟩ ⟨-2000000000, 0⟩ ≠ [Call.back] := by
  decide

/-- C9: when the gestures setting is off or the released button is not the middle one,
the release handler makes none of the four navigation calls, whatever the stored origin
and the release point are; and for every release event the last (and only such) call is
the forwarding of the event to the base handler. -/
theorem release_without_gesture (s : State) (g : Bool) (event : QMouseEvent) :
    ((g = false ∨ event.button ≠ MouseButton.MiddleButton) →
        (mouseReleaseEvent s g event).2 = [Call.baseMouseReleaseEvent]) ∧
      (mouseReleaseEvent s g event).2.getLast? = some Call.baseMouseReleaseEvent ∧
      (mouseReleaseEvent s g event).2.count Call.baseMouseReleaseEvent = 1 := by
  obtain ⟨b, m, p⟩ := event
  refine ⟨?_, by simp [mouseReleaseEvent], ?_⟩
  · rintro (h | h)
    · subst h
      simp [mouseReleaseEvent]
    · have hb : ¬ (b.flag &&& MouseButton.MiddleButton.flag ≠ 0) := fun hc =>
        h ((flag_and_middle b).1 hc)
      simp only [mouseReleaseEvent, if_neg hb, List.nil_append]
  · have hres := resolveGesture_count_base s.m_gestureOrigin p
    simp only [mouseReleaseEvent]
    split_ifs <;> simp [hres]

theorem release_without_gesture_witness :
    (mouseReleaseEvent ⟨⟨100, 100⟩⟩ false ⟨MouseButton.MiddleButton, 0, ⟨0, 100⟩⟩).2 =
        [Call.baseMouseReleaseEvent] ∧
      (mouseReleaseEvent ⟨⟨100, 100⟩⟩ true ⟨MouseButton.LeftButton, 0, ⟨0, 100⟩⟩).2 =
        [Call.baseMouseReleaseEvent] :=
  ⟨(release_without_gesture ⟨⟨100, 100⟩⟩ false
      ⟨MouseButton.MiddleButton, 0, ⟨0, 100⟩⟩).1 (Or.inl rfl),
    (release_without_gesture ⟨⟨100, 100⟩⟩ true
      ⟨MouseButton.LeftButton, 0, ⟨0, 100⟩⟩).1 (Or.inr (by decide))⟩

/-- C10 (as amended): closed form of the resolver when none of the four displacements
overflows `int`. With `dx = origin.x - release.x` and `dy = origin.y - release.y`:
`back` iff `dx ≥ 40` and `dx ≥ |dy|`; `forward` iff `-dx ≥ 40` and `-dx ≥ |dy|`; `reload`
iff `dy ≥ 40` and `dy > |dx|`; `newTabRequested` iff `-dy ≥ 40` and `-dy > |dx|`. The
four conditions exclude each other, and on an exact diagonal (`|dx| = |dy| ≥ 40`) the
call is `back` or `forward`, never `reload` or `newTabRequested`. -/
theorem resolver_closed_form (origin release : QPoint) (hno : noOverflow origin release) :
    (resolveGesture origin release = [Call.back] ↔
        40 ≤ origin.x - release.x ∧ |origin.y - release.y| ≤ origin.x - release.x) ∧
      (resolveGesture origin release = [Call.forward] ↔
        40 ≤ -(origin.x - release.x) ∧ |origin.y - release.y| ≤ -(origin.x - release.x)) ∧
      (resolveGesture origin release = [Call.reload] ↔
        40 ≤ origin.y - release.y ∧ |origin.x - release.x| < origin.y - release.y) ∧
      (resolveGesture origin release = [Call.newTabRequested] ↔
        40 ≤ -(origin.y - release.y) ∧ |origin.x - release.x| < -(origin.y - release.y)) ∧
      (¬ ((40 ≤ origin.x - release.x ∧ |origin.y - release.y| ≤ origin.x - release.x) ∧
          (40 ≤ -(origin.x - release.x) ∧
            |origin.y - release.y| ≤ -(origin.x - release.x))) ∧
        ¬ ((40 ≤ origin.x - release.x ∧ |origin.y - release.y| ≤ origin.x - release.x) ∧
          (40 ≤ origin.y - release.y ∧ |origin.x - release.x| < origin.y - release.y)) ∧
        ¬ ((40 ≤ origin.x - release.x ∧ |origin.y - release.y| ≤ origin.x - release.x) ∧
          (40 ≤ -(origin.y - release.y) ∧
            |origin.x - release.x| < -(origin.y - release.y))) ∧
        ¬ ((40 ≤ -(origin.x - release.x) ∧
            |origin.y - release.y| ≤ -(origin.x - release.x)) ∧
          (40 ≤ origin.y - release.y ∧ |origin.x - release.x| < origin.y - release.y)) ∧
        ¬ ((40 ≤ -(origin.x - release.x) ∧
            |origin.y - release.y| ≤ -(origin.x - release.x)) ∧
          (40 ≤ -(origin.y - release.y) ∧
            |origin.x - release.x| < -(origin.y - release.y))) ∧
        ¬ ((40 ≤ origin.y - release.y ∧ |origin.x - release.x| < origin.y - release.y) ∧
          (40 ≤ -(origin.y - release.y) ∧
            |origin.x - release.x| < -(origin.y - release.y)))) ∧
      (|origin.x - release.x| = |origin.y - release.y| → 40 ≤ |origin.x - release.x| →
        (resolveGesture origin release = [Call.back] ∨
            resolveGesture origin release = [Call.forward]) ∧
          resolveGesture origin release ≠ [Call.reload] ∧
          resolveGesture origin release ≠ [Call.newTabRequested]) := by
  rw [resolveGesture_exact _ _ hno]
  simp only [abs_eq_max_neg]
  refine ⟨?_, ?_, ?_, ?_, ⟨?_, ?_, ?_, ?_, ?_, ?_⟩, fun h1 h2 => ⟨?_, ?_, ?_⟩⟩
  any_goals omega
  all_goals split_ifs <;> simp <;> omega

theorem resolver_closed_form_witness :
    noOverflow ⟨50, 50⟩ ⟨0, 0⟩ ∧
      (resolveGesture ⟨50, 50⟩ ⟨0, 0⟩ = [Call.back] ∨
        resolveGesture ⟨50, 50⟩ ⟨0, 0⟩ = [Call.forward]) ∧
      resolveGesture ⟨50, 50⟩ ⟨0, 0⟩ ≠ [Call.reload] ∧
      resolveGesture ⟨50, 50⟩ ⟨0, 0⟩ ≠ [Call.newTabRequested] :=
  ⟨by decide,
    (resolver_closed_form ⟨50, 50⟩ ⟨0, 0⟩ (by decide)).2.2.2.2.2 (by decide) (by decide)⟩

/-- C10 (as stated) fails: for the `int` coordinates origin (2000000000,0) and release
(-2000000000,0), `dx = 4000000000` satisfies `dx ≥ 40` and `dx ≥ |dy| = 0`, the condition
the claim gives for `back`; the handler, whose left displacement wraps to -294967296,
calls `forward` and not `back`. -/
theorem closed_form_fails_on_overflow :
    (fitsInt 2000000000 ∧ fitsInt (-2000000000) ∧ fitsInt 0) ∧
      resolveGesture ⟨2000000000, 0⟩ ⟨-2000000000, 0⟩ = [Call.forward] ∧
      ¬ (resolveGesture ⟨2000000000, 0⟩ ⟨-2000000000, 0⟩ = [Call.back] ↔
        40 ≤ (⟨2000000000, 0⟩ : QPoint).x - (⟨-2000000000, 0⟩ : QPoint).x ∧
          |(⟨2000000000, 0⟩ : QPoint).y - (⟨-2000000000, 0⟩ : QPoint).y| ≤
            (⟨2000000000, 0⟩ : QPoint).x - (⟨-2000000000, 0⟩ : QPoint).x) := by
  have hf : resolveGesture ⟨2000000000, 0⟩ ⟨-2000000000, 0⟩ = [Call.forward] := by decide
  refine ⟨by decide, hf, ?_⟩
  rw [hf]
  intro hiff
  have hb : [Call.forward] = [Call.back] := hiff.2 ⟨by decide, by decide⟩
  exact absurd hb (by decide)

/-! ## Lifetime of the gesture origin -/

/-- C6 (as amended): a middle-button press stores the press position as the gesture
origin and makes no call, and no other press changes the origin; a release never changes
the stored origin; hence a second middle-button release that follows a middle press and a
first middle release, with gestures enabled, is resolved against the origin of that
press. -/
theorem origin_survives_release (s : State) (hit : QWebHitTestResult) (press : QMouseEvent)
    (g : Bool) (release : QMouseEvent) (m₁ m₂ m₃ : Nat) (p r₁ r₂ : QPoint) :
    mousePressEvent s hit ⟨MouseButton.MiddleButton, m₁, p⟩ = (⟨p⟩, []) ∧
      (mousePressEvent s hit press).1 =
        (if press.button = MouseButton.MiddleButton then ⟨press.pos⟩ else s) ∧
      (mouseReleaseEvent s g release).1 = s ∧
      (mouseReleaseEvent
          (mouseReleaseEvent (mousePressEvent s hit ⟨MouseButton.MiddleButton, m₁, p⟩).1 g
            ⟨MouseButton.MiddleButton, m₂, r₁⟩).1
          true ⟨MouseButton.MiddleButton, m₃, r₂⟩).2 =
        resolveGesture p r₂ ++ [Call.baseMouseReleaseEvent] := by
  have hpress : mousePressEvent s hit ⟨MouseButton.MiddleButton, m₁, p⟩ = (⟨p⟩, []) := by
    simp [mousePressEvent, MouseButton.flag]
  refine ⟨hpress, ?_, rfl, ?_⟩
  · obtain ⟨b, m, q⟩ := press
    by_cases hb : b = MouseButton.MiddleButton
    · subst hb
      simp [mousePressEvent, MouseButton.flag]
    · simp only [mousePressEvent, flag_and_left, flag_and_middle, hb, if_false]
      split_ifs
      · cases hit.linkUrl <;> cases hit.imageUrl <;> rfl
      · rfl
  · rw [hpress, release_keeps_state, middle_release_calls]
    simp

/-- C6 (as stated) fails: after a middle press at (100,100) and a middle release at
(0,100), the stored origin is still (100,100), and a second middle release at (0,100)
with no press in between again calls `back`, resolved from that old origin. -/
theorem second_release_reuses_origin :
    (mouseReleaseEvent
        (mousePressEvent ⟨⟨0, 0⟩⟩ ⟨none, none⟩
          ⟨MouseButton.MiddleButton, 0, ⟨100, 100⟩⟩).1
        true ⟨MouseButton.MiddleButton, 0, ⟨0, 100⟩⟩).1.m_gestureOrigin = ⟨100, 100⟩ ∧
      (mouseReleaseEvent
          (mouseReleaseEvent
            (mousePressEvent ⟨⟨0, 0⟩⟩ ⟨none, none⟩
              ⟨MouseButton.MiddleButton, 0, ⟨100, 100⟩⟩).1
            true ⟨MouseButton.MiddleButton, 0, ⟨0, 100⟩⟩).1
          true ⟨MouseButton.MiddleButton, 0, ⟨0, 100⟩⟩).2 =
        [Call.back, Call.baseMouseReleaseEvent] ∧
      (mouseReleaseEvent
          (mouseReleaseEvent
            (mousePressEvent ⟨⟨0, 0⟩⟩ ⟨none, none⟩
              ⟨MouseButton.MiddleButton, 0, ⟨100, 100⟩⟩).1
            true ⟨MouseButton.MiddleButton, 0, ⟨0, 100⟩⟩).1
          true ⟨MouseButton.MiddleButton, 0, ⟨0, 100⟩⟩).2 ≠
        [Call.baseMouseReleaseEvent] := by
  decide

/-! ## Zoom -/

/-- C3 (as amended): a zoom step with `delta = ±0.1` sets the factor to
`clamp(current + delta, 0.0, MAX_ZOOM_FACTOR)` when `current + delta` lies within
`[0.0, MAX_ZOOM_FACTOR]` (where the clamp is `current + delta` itself) and leaves the
factor as it is otherwise; it returns true exactly when the factor changed. -/
theorem zoom_step_guarded (MAX_ZOOM_FACTOR current : ℚ) :
    ((increaseWebPageZoom MAX_ZOOM_FACTOR current).2 =
        if 0 ≤ current + 1 / 10 ∧ current + 1 / 10 ≤ MAX_ZOOM_FACTOR then
          clampSpec (current + 1 / 10) 0 MAX_ZOOM_FACTOR
        else current) ∧
      ((increaseWebPageZoom MAX_ZOOM_FACTOR current).1 = true ↔
        (increaseWebPageZoom MAX_ZOOM_FACTOR current).2 ≠ current) ∧
      ((decreaseWebPageZoom MAX_ZOOM_FACTOR current).2 =
        if 0 ≤ current - 1 / 10 ∧ current - 1 / 10 ≤ MAX_ZOOM_FACTOR then
          clampSpec (current - 1 / 10) 0 MAX_ZOOM_FACTOR
        else current) ∧
      ((decreaseWebPageZoom MAX_ZOOM_FACTOR current).1 = true ↔
        (decreaseWebPageZoom MAX_ZOOM_FACTOR current).2 ≠ current) := by
  rw [increase_eq, decrease_eq]
  refine ⟨?_, ?_, ?_, ?_⟩
  · split_ifs with h
    · exact (clampSpec_of_mem _ _ h.1 h.2).symm
    · rfl
  · split_ifs <;> simp
  · split_ifs with h
    · exact (clampSpec_of_mem _ _ h.1 h.2).symm
    · rfl
  · split_ifs <;> simp

/-- C3 (as stated) fails: with ceiling 5 and factor 4.95 an increase is refused and the
factor stays 4.95, whereas `clamp(4.95 + 0.1, 0, 5)` is 5; with factor 0.05 a decrease is
refused and the factor stays 0.05, whereas `clamp(0.05 - 0.1, 0, 5)` is 0. -/
theorem zoom_step_is_not_clamp :
    increaseWebPageZoom 5 (99 / 20) = (false, 99 / 20) ∧
      clampSpec (99 / 20 + 1 / 10) 0 5 = 5 ∧
      (increaseWebPageZoom 5 (99 / 20)).2 ≠ clampSpec (99 / 20 + 1 / 10) 0 5 ∧
      decreaseWebPageZoom 5 (1 / 20) = (false, 1 / 20) ∧
      clampSpec (1 / 20 - 1 / 10) 0 5 = 0 ∧
      (decreaseWebPageZoom 5 (1 / 20)).2 ≠ clampSpec (1 / 20 - 1 / 10) 0 5 := by
  have hi : increaseWebPageZoom 5 (99 / 20) = (false, 99 / 20) := by
    rw [increase_eq, if_neg (by norm_num)]
  have hd : decreaseWebPageZoom 5 (1 / 20) = (false, 1 / 20) := by
    rw [decrease_eq, if_neg (by norm_num)]
  have ci : clampSpec (99 / 20 + 1 / 10) 0 5 = 5 := by
    norm_num [clampSpec]
  have cd : clampSpec (1 / 20 - 1 / 10) 0 5 = 0 := by
    norm_num [clampSpec]
  refine ⟨hi, ci, ?_, hd, cd, ?_⟩
  · rw [hi, ci]; norm_num
  · rw [hd, cd]; norm_num

/-- C4: starting from factor 1.0 with `MAX_ZOOM_FACTOR ≥ 1.0`, there is a first call
(number `n`, counting from 0) of `increaseWebPageZoom` whose new factor would exceed the
ceiling: every call before it stays within the ceiling, returns true and raises the
factor by exactly 0.1; that call and every later one returns false and leaves the factor
unchanged. -/
theorem increase_until_ceiling (MAX_ZOOM_FACTOR : ℚ) (hmax : 1 ≤ MAX_ZOOM_FACTOR) :
    ∃ n : Nat,
      (∀ k, k < n →
        zoomAfterIncreases MAX_ZOOM_FACTOR k + 1 / 10 ≤ MAX_ZOOM_FACTOR ∧
          increaseWebPageZoom MAX_ZOOM_FACTOR (zoomAfterIncreases MAX_ZOOM_FACTOR k) =
            (true, zoomAfterIncreases MAX_ZOOM_FACTOR k + 1 / 10)) ∧
        MAX_ZOOM_FACTOR < zoomAfterIncreases MAX_ZOOM_FACTOR n + 1 / 10 ∧
        (∀ k, n ≤ k →
          increaseWebPageZoom MAX_ZOOM_FACTOR (zoomAfterIncreases MAX_ZOOM_FACTOR k) =
            (false, zoomAfterIncreases MAX_ZOOM_FACTOR k)) := by
  have hfl : ((⌊(MAX_ZOOM_FACTOR - 1) * 10⌋₊ : Nat) : ℚ) ≤ (MAX_ZOOM_FACTOR - 1) * 10 :=
    Nat.floor_le (by nlinarith)
  have hlt : (MAX_ZOOM_FACTOR - 1) * 10 < ((⌊(MAX_ZOOM_FACTOR - 1) * 10⌋₊ : Nat) : ℚ) + 1 :=
    Nat.lt_floor_add_one _
  refine ⟨⌊(MAX_ZOOM_FACTOR - 1) * 10⌋₊, fun k hk => ?_, ?_, fun k hk => ?_⟩
  · have hk1 : ((k : ℚ) + 1) ≤ (⌊(MAX_ZOOM_FACTOR - 1) * 10⌋₊ : Nat) := by exact_mod_cast hk
    have hk0 : (0 : ℚ) ≤ k := Nat.cast_nonneg k
    rw [zoomAfterIncreases_of_le _ hmax k hk.le]
    have hle : 1 + (k : ℚ) / 10 + 1 / 10 ≤ MAX_ZOOM_FACTOR := by linarith
    exact ⟨hle, by rw [increase_eq, if_pos ⟨by linarith, hle⟩]⟩
  · rw [zoomAfterIncreases_of_le _ hmax _ le_rfl]
    linarith
  · rw [zoomAfterIncreases_of_ge _ hmax k hk, increase_eq,
      if_neg (fun hc => by linarith [hc.2])]

theorem increase_until_ceiling_witness :
    (1 : ℚ) ≤ 5 ∧
      ∃ n : Nat,
        (∀ k, k < n →
          zoomAfterIncreases 5 k + 1 / 10 ≤ 5 ∧
            increaseWebPageZoom 5 (zoomAfterIncreases 5 k) =
              (true, zoomAfterIncreases 5 k + 1 / 10)) ∧
          5 < zoomAfterIncreases 5 n + 1 / 10 ∧
          (∀ k, n ≤ k →
            increaseWebPageZoom 5 (zoomAfterIncreases 5 k) =
              (false, zoomAfterIncreases 5 k)) :=
  ⟨by norm_num, increase_until_ceiling 5 (by norm_num)⟩

/-- C7: with `1.0 ≤ MAX_ZOOM_FACTOR`, a factor within `[0.0, MAX_ZOOM_FACTOR]` is again
within `[0.0, MAX_ZOOM_FACTOR]` after `increaseWebPageZoom`, after `decreaseWebPageZoom`
and after `resetWebPageZoom`, whether or not the call applied a change. -/
theorem zoom_factor_stays_in_range (MAX_ZOOM_FACTOR f : ℚ) (hmax : 1 ≤ MAX_ZOOM_FACTOR)
    (h0 : 0 ≤ f) (h1 : f ≤ MAX_ZOOM_FACTOR) :
    (0 ≤ (increaseWebPageZoom MAX_ZOOM_FACTOR f).2 ∧
        (increaseWebPageZoom MAX_ZOOM_FACTOR f).2 ≤ MAX_ZOOM_FACTOR) ∧
      (0 ≤ (decreaseWebPageZoom MAX_ZOOM_FACTOR f).2 ∧
        (decreaseWebPageZoom MAX_ZOOM_FACTOR f).2 ≤ MAX_ZOOM_FACTOR) ∧
      (0 ≤ (resetWebPageZoom f).2 ∧ (resetWebPageZoom f).2 ≤ MAX_ZOOM_FACTOR) := by
  rw [increase_eq, decrease_eq]
  refine ⟨?_, ?_, ?_⟩
  · split_ifs with h
    · exact h
    · exact ⟨h0, h1⟩
  · split_ifs with h
    · exact h
    · exact ⟨h0, h1⟩
  · rw [reset_eq]
    split_ifs
    · exact ⟨zero_le_one, hmax⟩
    · exact ⟨h0, h1⟩

theorem zoom_factor_stays_in_range_witness :
    ((1 : ℚ) ≤ 5 ∧ (0 : ℚ) ≤ 49 / 10 ∧ (49 / 10 : ℚ) ≤ 5) ∧
      (0 ≤ (increaseWebPageZoom 5 (49 / 10)).2 ∧ (increaseWebPageZoom 5 (49 / 10)).2 ≤ 5) ∧
      (0 ≤ (decreaseWebPageZoom 5 (49 / 10)).2 ∧ (decreaseWebPageZoom 5 (49 / 10)).2 ≤ 5) ∧
      (0 ≤ (resetWebPageZoom (49 / 10)).2 ∧ (resetWebPageZoom (49 / 10)).2 ≤ 5) :=
  ⟨⟨by norm_num, by norm_num, by norm_num⟩,
    zoom_factor_stays_in_range 5 (49 / 10) (by norm_num) (by norm_num) (by norm_num)⟩

end WebView
